import Mathlib

/-!
Shallow embedding of the Traffic-Simulation repository (src/app/models.py,
src/app/simulator.py) and verification of the frozen claims about it.

Python integers are embedded as `Int`, grid positions as `Int × Int`,
Python strings (directions, light colours) as `String`, the intersection
dictionary as an association list keyed by position, and the in-place
mutation of the car list during `Simulator.update` as explicit
done/todo list passing.
-/

/-- Grid position: an (x, y) pair of Python integers. -/
abbrev Pos := Int × Int

/-- Embeds class `Car` (src/app/models.py, lines 11-27): id, position,
direction string, optional destination and path. -/
structure Car where
  id : Int
  position : Pos
  direction : String
  destination : Option Pos := none
  path : List Pos := []
deriving DecidableEq, Repr

/-- Embeds `Car.move` (src/app/models.py, lines 29-45): one step in the
current direction; unknown direction strings leave the position unchanged. -/
def Car.move (c : Car) : Car :=
  let x := c.position.1
  let y := c.position.2
  if c.direction = "N" then { c with position := (x, y - 1) }
  else if c.direction = "S" then { c with position := (x, y + 1) }
  else if c.direction = "E" then { c with position := (x + 1, y) }
  else if c.direction = "W" then { c with position := (x - 1, y) }
  else c

/-- The two-key light dictionary `{'NS': ..., 'EW': ...}` of an
Intersection (src/app/models.py, line 78). -/
structure LightState where
  ns : String
  ew : String
deriving DecidableEq, Repr

/-- Embeds class `Intersection` (src/app/models.py, lines 64-82). -/
structure Intersection where
  position : Pos
  light_state : LightState
  cycle_length : Int
  timer : Int
deriving DecidableEq, Repr

/-- Embeds `Intersection.__init__` (src/app/models.py, lines 65-82):
`initial_state = none` selects the default NS-green / EW-red state,
and the timer starts at 0. -/
def Intersection.init (position : Pos) (initial_state : Option LightState)
    (cycle_length : Int) : Intersection :=
  { position := position
    light_state :=
      match initial_state with
      | none => { ns := "green", ew := "red" }
      | some st => st
    cycle_length := cycle_length
    timer := 0 }

/-- Embeds `Intersection.update_light` (src/app/models.py, lines 84-98):
increment the timer; once it reaches `cycle_length`, swap the lights
(branching on whether NS is green) and reset the timer to 0. -/
def Intersection.update_light (i : Intersection) : Intersection :=
  let t := i.timer + 1
  if t ≥ i.cycle_length then
    if i.light_state.ns = "green" then
      { i with light_state := { ns := "red", ew := "green" }, timer := 0 }
    else
      { i with light_state := { ns := "green", ew := "red" }, timer := 0 }
  else
    { i with timer := t }

/-- Embeds `Intersection.is_green` (src/app/models.py, lines 100-112):
NS axis for directions N and S, EW axis for E and W, `false` for any
other direction string. -/
def Intersection.is_green (i : Intersection) (direction : String) : Bool :=
  if direction = "N" ∨ direction = "S" then decide (i.light_state.ns = "green")
  else if direction = "E" ∨ direction = "W" then decide (i.light_state.ew = "green")
  else false

/-- Embeds class `RoadNetwork` (src/app/models.py, lines 124-141): the
constructor leaves `road_cells` empty (the layout initialisation is a
TODO in the source). -/
structure RoadNetwork where
  grid_size : Int
  road_cells : List Pos
deriving DecidableEq, Repr

/-- Embeds `RoadNetwork.__init__` (src/app/models.py, lines 129-132). -/
def RoadNetwork.init (grid_size : Int) : RoadNetwork :=
  { grid_size := grid_size, road_cells := [] }

/-- Embeds `RoadNetwork.is_road` (src/app/models.py, lines 134-136). -/
def RoadNetwork.is_road (r : RoadNetwork) (pos : Pos) : Bool :=
  decide (pos ∈ r.road_cells)

/-- Embeds `RoadNetwork.get_neighbors` (src/app/models.py, lines 138-141):
the body is a TODO stub returning the empty list. -/
def RoadNetwork.get_neighbors (_r : RoadNetwork) (_pos : Pos) : List Pos :=
  []

/-- Embeds class `Simulator`'s state (src/app/simulator.py, lines 27-31):
grid size, tick counter, the car list, the position-keyed intersection
dictionary (as an association list), and the road network. -/
structure Simulator where
  grid_size : Int
  time_step : Int
  cars : List Car
  intersections : List (Pos × Intersection)
  road_network : RoadNetwork
deriving DecidableEq, Repr

/-- Embeds `Simulator._get_next_position` (src/app/simulator.py, lines
76-93): one cell ahead in the car's direction; an unknown direction
string yields the car's own position. -/
def get_next_position (car : Car) : Pos :=
  let x := car.position.1
  let y := car.position.2
  if car.direction = "N" then (x, y - 1)
  else if car.direction = "S" then (x, y + 1)
  else if car.direction = "E" then (x + 1, y)
  else if car.direction = "W" then (x - 1, y)
  else (x, y)

/-- Embeds `Simulator._in_bounds` (src/app/simulator.py, lines 95-104). -/
def inBounds (grid_size : Int) (pos : Pos) : Bool :=
  decide (0 ≤ pos.1 ∧ pos.1 < grid_size ∧ 0 ≤ pos.2 ∧ pos.2 < grid_size)

/-- Embeds the dictionary lookup `self.intersections.get(next_pos)`
(src/app/simulator.py, line 66). -/
def lookupIntersection (inters : List (Pos × Intersection)) (pos : Pos) :
    Option Intersection :=
  (inters.find? (fun q => decide (q.1 = pos))).map (fun q => q.2)

/-- Embeds the collision test of `Simulator.update` (src/app/simulator.py,
line 70): the candidate is rejected when it is in `new_positions` or is
the current position of any car in the list (the moving car included). -/
def collisionRejected (cars : List Car) (new_positions : List Pos)
    (car : Car) : Bool :=
  let np := get_next_position car
  decide (np ∈ new_positions) || cars.any (fun o => decide (o.position = np))

/-- Embeds the three admissibility checks of one loop iteration of
`Simulator.update` (src/app/simulator.py, lines 61-71), in source order:
bounds check, red-light check at a controlled cell, collision check.
`cars` is the full car list as it stands when this car is evaluated. -/
def carMoves (grid_size : Int) (inters : List (Pos × Intersection))
    (cars : List Car) (new_positions : List Pos) (car : Car) : Bool :=
  let np := get_next_position car
  inBounds grid_size np &&
    (match lookupIntersection inters np with
     | some it => it.is_green car.direction
     | none => true) &&
    !(collisionRejected cars new_positions car)

/-- Embeds the car loop of `Simulator.update` (src/app/simulator.py,
lines 59-74). The Python loop mutates cars in place inside `self.cars`;
here `done` holds the already-evaluated cars (moved or not) and `todo`
the rest, so the live list seen by the collision check is
`done ++ todo`. An admissible car is replaced by `Car.move` of itself
and its new position is added to `new_positions`. -/
def updateGo (grid_size : Int) (inters : List (Pos × Intersection)) :
    List Car → List Car → List Pos → List Car
  | done, [], _ => done
  | done, car :: rest, new_positions =>
    if carMoves grid_size inters (done ++ car :: rest) new_positions car then
      let moved := Car.move car
      updateGo grid_size inters (done ++ [moved]) rest (moved.position :: new_positions)
    else
      updateGo grid_size inters (done ++ [car]) rest new_positions

/-- Embeds `Simulator.update` (src/app/simulator.py, lines 47-74):
increment the tick counter, advance every intersection's light, then
run the sequential car-move pass against the updated lights. -/
def Simulator.update (s : Simulator) : Simulator :=
  let inters := s.intersections.map (fun q => (q.1, Intersection.update_light q.2))
  { s with
    time_step := s.time_step + 1
    intersections := inters
    cars := updateGo s.grid_size inters [] s.cars [] }

/-- Embeds `Simulator.find_path` (src/app/simulator.py, lines 171-177):
the body is a TODO stub that returns the empty list for every input. -/
def Simulator.find_path (_s : Simulator) (_start _goal : Pos) : List Pos :=
  []

/-- Embeds `range(0, grid_size, 3)` (src/app/simulator.py, line 34):
the multiples of 3 below `grid_size`, empty when `grid_size ≤ 0`. -/
def strideThree (grid_size : Int) : List Int :=
  ((List.range grid_size.toNat).filter (fun k => k % 3 = 0)).map Int.ofNat

/-- Embeds the intersection placement of `Simulator.__init__`
(src/app/simulator.py, lines 33-36): an Intersection with the default
light state at every position whose coordinates are both multiples
of 3, with the given cycle length. -/
def initIntersections (grid_size : Int) (cycle : Int) :
    List (Pos × Intersection) :=
  (strideThree grid_size).flatMap (fun x =>
    (strideThree grid_size).map (fun y =>
      ((x, y), Intersection.init (x, y) none cycle)))

/-- Embeds `Simulator.__init__` (src/app/simulator.py, lines 19-45).
The constructor performs no validation. Car placement in the source
draws random positions and directions, retrying until the position is
neither an intersection nor occupied; `specs` stands for the sequence
of accepted draws (position, direction), and car `i` gets id `i`. -/
def simInit (grid_size : Int) (specs : List (Pos × String)) (cycle : Int) :
    Simulator :=
  { grid_size := grid_size
    time_step := 0
    cars := specs.enum.map (fun q => { id := (q.1 : Int), position := q.2.1, direction := q.2.2 })
    intersections := initIntersections grid_size cycle
    road_network := RoadNetwork.init grid_size }

/-- Models the spec's Heading unit deltas (spec section 3): N=(0,-1),
S=(0,+1), E=(+1,0), W=(-1,0); (0,0) for non-cardinal strings. -/
def headingDelta (direction : String) : Pos :=
  if direction = "N" then (0, -1)
  else if direction = "S" then (0, 1)
  else if direction = "E" then (1, 0)
  else if direction = "W" then (-1, 0)
  else (0, 0)

/-- Models the collision-check condition exactly as the spec words it
(spec section 4.3): rejected when the candidate was already claimed by a
vehicle that moved earlier in this pass, or is the current position of a
vehicle not yet evaluated. Compared against `collisionRejected`. -/
def collisionRejectedClaimed (claimed : List Pos) (notYetEvaluated : List Car)
    (car : Car) : Bool :=
  let np := get_next_position car
  decide (np ∈ claimed) || notYetEvaluated.any (fun o => decide (o.position = np))

/-- Models the spec's InvalidConfiguration condition exactly as worded
(spec section 7): non-positive grid size or cycle length, or more
vehicles than available unoccupied non-intersection cells. -/
def specInvalidConfiguration (grid_size : Int) (cycle : Int)
    (vehicleCount : Nat) (freeCells : Nat) : Bool :=
  decide (grid_size ≤ 0) || decide (cycle ≤ 0) || decide (freeCells < vehicleCount)

/-- First car of the C2 counterexample state: its candidate (5, 1) is
out of bounds on a 5-grid, so it is evaluated first and stays. -/
def blockedCarA : Car :=
  { id := 0, position := (4, 1), direction := "E" }

/-- Second car of the C2 counterexample state: its candidate (4, 1) is
the cell of the already-evaluated, unmoved first car. -/
def blockedCarB : Car :=
  { id := 1, position := (3, 1), direction := "E" }

/-- Engine state with the two cars above on a 5-grid with the standard
stride-3 intersections. -/
def blockedPairSim : Simulator :=
  { grid_size := 5
    time_step := 0
    cars := [blockedCarA, blockedCarB]
    intersections := initIntersections 5 5
    road_network := RoadNetwork.init 5 }

/-- Car used in the C3 witness: at (2, 0) heading East toward the
controlled cell (3, 0). -/
def eastCar : Car :=
  { id := 0, position := (2, 0), direction := "E" }

/-- An intersection at (3, 0) with the EW axis green, one tick in. -/
def greenEWCell : Intersection :=
  { position := (3, 0)
    light_state := { ns := "red", ew := "green" }
    cycle_length := 5
    timer := 1 }

/-- An intersection at (3, 0) with the EW axis red, one tick in. -/
def redEWCell : Intersection :=
  { position := (3, 0)
    light_state := { ns := "green", ew := "red" }
    cycle_length := 5
    timer := 1 }

/-! ### Helper lemmas about `Car.move` and the light state machine -/

/-- Moving a car lands it exactly on its computed candidate position,
for every direction string (for unknown directions both are the current
position). -/
lemma move_position (c : Car) : (Car.move c).position = get_next_position c := by
  unfold Car.move get_next_position
  split_ifs <;> rfl

/-- Characterisation of `update_light` iterated from the default initial
state with a positive cycle length: after `n` calls the lights are the
initial pair when `n / c` is even and the swapped pair otherwise, and
the timer equals `n % c`. -/
lemma update_light_iter (p : Pos) (c : Nat) (hc : 1 ≤ c) (n : Nat) :
    Intersection.update_light^[n] (Intersection.init p none (c : Int)) =
      { position := p
        light_state :=
          if (n / c) % 2 = 0 then { ns := "green", ew := "red" }
          else { ns := "red", ew := "green" }
        cycle_length := (c : Int)
        timer := ((n % c : Nat) : Int) } := by
  induction n with
  | zero =>
    simp [Intersection.init, Nat.zero_div, Nat.zero_mod]
  | succ n ih =>
    rw [Function.iterate_succ_apply', ih]
    have hc0 : 0 < c := hc
    have hdm : c * (n / c) + n % c = n := Nat.div_add_mod n c
    have hmlt : n % c < c := Nat.mod_lt n hc0
    by_cases hedge : n % c + 1 = c
    · have hsum : n + 1 = c * (n / c + 1) := by
        rw [Nat.mul_add, Nat.mul_one]
        omega
      have hdiv : (n + 1) / c = n / c + 1 := by
        rw [hsum, Nat.mul_div_cancel_left _ hc0]
      have hmod : (n + 1) % c = 0 := by
        rw [hsum, Nat.mul_mod_right]
      have hge : ((n % c : Nat) : Int) + 1 ≥ (c : Int) := by
        omega
      unfold Intersection.update_light
      rw [if_pos hge, hdiv, hmod]
      by_cases hpar : (n / c) % 2 = 0
      · rw [if_pos hpar]
        have : (n / c + 1) % 2 ≠ 0 := by omega
        simp [this]
      · rw [if_neg hpar]
        have : (n / c + 1) % 2 = 0 := by omega
        simp [hpar, this]
    · have hlt : n % c + 1 < c := by omega
      have hsum : n + 1 = c * (n / c) + (n % c + 1) := by omega
      have hdiv : (n + 1) / c = n / c := by
        rw [hsum, Nat.mul_add_div hc0, Nat.div_eq_of_lt hlt, Nat.add_zero]
      have hmod : (n + 1) % c = n % c + 1 := by
        rw [hsum, Nat.mul_add_mod, Nat.mod_eq_of_lt hlt]
      have hnge : ¬ (((n % c : Nat) : Int) + 1 ≥ (c : Int)) := by
        omega
      unfold Intersection.update_light
      rw [if_neg hnge, hdiv, hmod]
      by_cases hpar : (n / c) % 2 = 0
      · simp [hpar]
      · simp [hpar]

/-- One call to `update_light` keeps the light state inside the two-value
set {NS-green/EW-red, NS-red/EW-green}, for any cycle length and timer. -/
lemma update_light_one_green (i : Intersection)
    (h : i.light_state = { ns := "green", ew := "red" } ∨
         i.light_state = { ns := "red", ew := "green" }) :
    (Intersection.update_light i).light_state = { ns := "green", ew := "red" } ∨
      (Intersection.update_light i).light_state = { ns := "red", ew := "green" } := by
  unfold Intersection.update_light
  by_cases ht : i.timer + 1 ≥ i.cycle_length
  · rw [if_pos ht]
    rcases h with h | h <;> rw [h] <;> simp
  · rw [if_neg ht]
    simpa using h

/-! ### Structure of the sequential car pass -/

/-- The car pass keeps the already-evaluated prefix and produces exactly
one output car per remaining input car. -/
lemma updateGo_shape (gs : Int) (inters : List (Pos × Intersection)) :
    ∀ (todo done : List Car) (newps : List Pos),
      ∃ l, updateGo gs inters done todo newps = done ++ l ∧
        l.length = todo.length := by
  intro todo
  induction todo with
  | nil =>
    intro done newps
    exact ⟨[], by simp [updateGo], rfl⟩
  | cons car rest ih =>
    intro done newps
    rw [updateGo]
    by_cases hm : carMoves gs inters (done ++ car :: rest) newps car
    · rw [if_pos hm]
      obtain ⟨l, hl, hlen⟩ := ih (done ++ [Car.move car]) ((Car.move car).position :: newps)
      refine ⟨Car.move car :: l, ?_, by simp [hlen]⟩
      rw [hl]
      simp
    · rw [if_neg hm]
      obtain ⟨l, hl, hlen⟩ := ih (done ++ [car]) newps
      refine ⟨car :: l, ?_, by simp [hlen]⟩
      rw [hl]
      simp

/-- The car pass preserves the number of cars (no car is ever removed). -/
lemma updateGo_length (gs : Int) (inters : List (Pos × Intersection))
    (todo done : List Car) (newps : List Pos) :
    (updateGo gs inters done todo newps).length = done.length + todo.length := by
  obtain ⟨l, hl, hlen⟩ := updateGo_shape gs inters todo done newps
  rw [hl]
  simp [hlen]

/-- A car that can never satisfy the admissibility checks while it is in
the live list is carried through the pass unchanged, at its own index. -/
lemma updateGo_get?_immovable (gs : Int) (inters : List (Pos × Intersection)) :
    ∀ (todo done : List Car) (newps : List Pos) (j : Nat) (c : Car),
      todo.get? j = some c →
      (∀ (cars : List Car) (nps : List Pos), c ∈ cars →
        carMoves gs inters cars nps c = false) →
      (updateGo gs inters done todo newps).get? (done.length + j) = some c := by
  intro todo
  induction todo with
  | nil =>
    intro done newps j c hj _
    simp at hj
  | cons car rest ih =>
    intro done newps j c hj himm
    cases j with
    | zero =>
      rw [List.get?_cons_zero] at hj
      injection hj with hj
      subst hj
      rw [updateGo]
      have hm : carMoves gs inters (done ++ car :: rest) newps car = false := by
        apply himm
        simp
      rw [hm]
      simp only [Bool.false_eq_true, if_false]
      obtain ⟨l, hl, _⟩ := updateGo_shape gs inters rest (done ++ [car]) newps
      rw [hl, Nat.add_zero, List.append_assoc]
      rw [List.get?_append_right (Nat.le_refl _)]
      simp
    | succ j =>
      rw [List.get?_cons_succ] at hj
      rw [updateGo]
      by_cases hm : carMoves gs inters (done ++ car :: rest) newps car
      · rw [if_pos hm]
        have := ih (done ++ [Car.move car]) ((Car.move car).position :: newps) j c hj himm
        rw [List.length_append] at this
        simpa [Nat.add_assoc, Nat.add_comm 1 j] using this
      · rw [if_neg hm]
        have := ih (done ++ [car]) newps j c hj himm
        rw [List.length_append] at this
        simpa [Nat.add_assoc, Nat.add_comm 1 j] using this

/-- When a car's move is admissible, its candidate cell is not among the
positions claimed this pass and differs from every live car's current
position (this is exactly the collision check passing). -/
lemma carMoves_fresh (gs : Int) (inters : List (Pos × Intersection))
    (cars : List Car) (newps : List Pos) (car : Car)
    (h : carMoves gs inters cars newps car = true) :
    get_next_position car ∉ newps ∧
      ∀ o ∈ cars, o.position ≠ get_next_position car := by
  unfold carMoves at h
  simp only [Bool.and_eq_true, Bool.not_eq_true'] at h
  obtain ⟨-, hcr⟩ := h
  unfold collisionRejected at hcr
  simp only [Bool.or_eq_false_iff, decide_eq_false_iff_not, List.any_eq_false,
    decide_eq_true_eq] at hcr
  exact hcr

/-- The sequential pass preserves pairwise-distinct car positions: the
collision check only admits candidate cells that are fresh with respect
to both the claimed set and every live position. -/
lemma updateGo_pairwise (gs : Int) (inters : List (Pos × Intersection)) :
    ∀ (todo done : List Car) (newps : List Pos),
      (done ++ todo).Pairwise (fun a b => a.position ≠ b.position) →
      (updateGo gs inters done todo newps).Pairwise
        (fun a b => a.position ≠ b.position) := by
  intro todo
  induction todo with
  | nil =>
    intro done newps h
    rw [updateGo]
    simpa using h
  | cons car rest ih =>
    intro done newps h
    rw [updateGo]
    by_cases hm : carMoves gs inters (done ++ car :: rest) newps car
    · rw [if_pos hm]
      apply ih
      have hfresh := (carMoves_fresh gs inters (done ++ car :: rest) newps car hm).2
      have hmp : (Car.move car).position = get_next_position car := move_position car
      rw [List.append_assoc, List.singleton_append]
      rw [List.pairwise_append] at h ⊢
      obtain ⟨hdone, hcr, hcross⟩ := h
      rw [List.pairwise_cons] at hcr ⊢
      obtain ⟨hhead, hrest⟩ := hcr
      refine ⟨hdone, ⟨?_, hrest⟩, ?_⟩
      · intro b hb
        rw [hmp]
        exact fun he => hfresh b (by simp [hb]) he.symm
      · intro a ha b hb
        rcases List.mem_cons.mp hb with hb | hb
        · subst hb
          rw [hmp]
          exact hfresh a (by simp [ha])
        · exact hcross a ha b (List.mem_cons_of_mem _ hb)
    · rw [if_neg hm]
      apply ih
      rw [List.append_assoc, List.singleton_append]
      exact h

/-- The cars field of an updated simulator is the sequential pass run
over the pre-tick car list against the freshly advanced lights. -/
lemma update_cars_eq (s : Simulator) :
    (Simulator.update s).cars =
      updateGo s.grid_size
        (s.intersections.map (fun q => (q.1, Intersection.update_light q.2)))
        [] s.cars [] := rfl

/-- C1: for every engine state in which all vehicles occupy pairwise
distinct positions, after one call to `update()` all vehicles again
occupy pairwise distinct positions. -/
theorem update_preserves_distinct_positions (s : Simulator)
    (h : s.cars.Pairwise (fun a b => a.position ≠ b.position)) :
    (Simulator.update s).cars.Pairwise (fun a b => a.position ≠ b.position) := by
  rw [update_cars_eq]
  exact updateGo_pairwise _ _ s.cars [] [] (by simpa using h)

/-- Witness for C1 at a concrete two-car state. -/
theorem update_preserves_distinct_positions_witness :
    (simInit 5 [((1, 1), "E"), ((2, 2), "N")] 5).cars.Pairwise
      (fun a b => a.position ≠ b.position) ∧
    (Simulator.update (simInit 5 [((1, 1), "E"), ((2, 2), "N")] 5)).cars.Pairwise
      (fun a b => a.position ≠ b.position) :=
  ⟨by decide, update_preserves_distinct_positions _ (by decide)⟩

/-- Division and remainder of a successor at a cycle boundary. -/
lemma succ_div_mod_edge (n c : Nat) (hc : 1 ≤ c) (h : n % c + 1 = c) :
    (n + 1) / c = n / c + 1 ∧ (n + 1) % c = 0 := by
  have hdm : c * (n / c) + n % c = n := Nat.div_add_mod n c
  have hsum : n + 1 = c * (n / c + 1) := by
    rw [Nat.mul_add, Nat.mul_one]
    omega
  constructor
  · rw [hsum, Nat.mul_div_cancel_left _ hc]
  · rw [hsum, Nat.mul_mod_right]

/-- Division and remainder of a successor inside a cycle. -/
lemma succ_div_mod_mid (n c : Nat) (hc : 1 ≤ c) (h : n % c + 1 < c) :
    (n + 1) / c = n / c ∧ (n + 1) % c = n % c + 1 := by
  have hdm : c * (n / c) + n % c = n := Nat.div_add_mod n c
  have hsum : n + 1 = c * (n / c) + (n % c + 1) := by
    omega
  constructor
  · rw [hsum, Nat.mul_add_div hc, Nat.div_eq_of_lt h, Nat.add_zero]
  · rw [hsum, Nat.mul_add_mod, Nat.mod_eq_of_lt h]

/-- C4: for every Intersection with cycleLength ≥ 1 built in the default
initial state, the lights start NS-green/EW-red; after n calls to
`update_light` the state is the initial pair when n / cycleLength is
even and the swapped pair otherwise with the timer equal to
n % cycleLength (so the timer is reset to 0 exactly at each flip); and
the (n+1)-st call leaves the lights unchanged exactly when n+1 is not a
multiple of cycleLength. -/
theorem light_flip_schedule (p : Pos) (c : Nat) (hc : 1 ≤ c) (n : Nat) :
    (Intersection.init p none (c : Int)).light_state = { ns := "green", ew := "red" } ∧
    Intersection.update_light^[n] (Intersection.init p none (c : Int)) =
      { position := p
        light_state :=
          if (n / c) % 2 = 0 then { ns := "green", ew := "red" }
          else { ns := "red", ew := "green" }
        cycle_length := (c : Int)
        timer := ((n % c : Nat) : Int) } ∧
    ((Intersection.update_light^[n + 1] (Intersection.init p none (c : Int))).light_state =
        (Intersection.update_light^[n] (Intersection.init p none (c : Int))).light_state ↔
      ¬ (n + 1) % c = 0) := by
  refine ⟨rfl, update_light_iter p c hc n, ?_⟩
  rw [update_light_iter p c hc (n + 1), update_light_iter p c hc n]
  have hmlt : n % c < c := Nat.mod_lt n hc
  by_cases hedge : n % c + 1 = c
  · obtain ⟨hdiv, hmod⟩ := succ_div_mod_edge n c hc hedge
    rw [hdiv, hmod]
    by_cases hpar : (n / c) % 2 = 0
    · have h1 : ¬ (n / c + 1) % 2 = 0 := by omega
      rw [if_neg h1, if_pos hpar]
      simp
    · have h1 : (n / c + 1) % 2 = 0 := by omega
      rw [if_pos h1, if_neg hpar]
      simp
  · have hmid : n % c + 1 < c := by omega
    obtain ⟨hdiv, hmod⟩ := succ_div_mod_mid n c hc hmid
    rw [hdiv, hmod]
    exact ⟨fun _ => by omega, fun _ => rfl⟩

/-- Witness for C4 with cycleLength 2 after 2 calls: one flip happened. -/
theorem light_flip_schedule_witness :
    (1 : Nat) ≤ 2 ∧
    (Intersection.update_light^[2]
        (Intersection.init ((0 : Int), (0 : Int)) none ((2 : Nat) : Int))).light_state =
      { ns := "red", ew := "green" } := by
  refine ⟨by decide, ?_⟩
  rw [(light_flip_schedule ((0 : Int), (0 : Int)) 2 (by decide) 2).2.1]
  decide

/-- C5: from the default initial state, after any number of calls to
`update_light` (for any cycle length) exactly one axis is green and the
other is red. -/
theorem exactly_one_axis_green (p : Pos) (cycle : Int) (n : Nat) :
    (Intersection.update_light^[n] (Intersection.init p none cycle)).light_state =
      { ns := "green", ew := "red" } ∨
    (Intersection.update_light^[n] (Intersection.init p none cycle)).light_state =
      { ns := "red", ew := "green" } := by
  induction n with
  | zero =>
    left
    rfl
  | succ n ih =>
    rw [Function.iterate_succ_apply']
    exact update_light_one_green _ ih

/-- Counterexample to C2 as stated: when car 1 is evaluated, car 0 has
already been evaluated and did not move (its candidate was out of
bounds), so nothing was claimed this pass and no unevaluated vehicle
remains; the claim's condition says the collision check does not
reject, yet the code's collision check rejects — car 1's candidate is
in bounds and not a controlled cell, and car 1 stays in place. -/
theorem collision_check_claim_counterexample :
    collisionRejected [blockedCarA, blockedCarB] [] blockedCarB = true ∧
    collisionRejectedClaimed [] [] blockedCarB = false ∧
    inBounds blockedPairSim.grid_size (get_next_position blockedCarB) = true ∧
    lookupIntersection
        (blockedPairSim.intersections.map
          (fun q => (q.1, Intersection.update_light q.2)))
        (get_next_position blockedCarB) = none ∧
    (Simulator.update blockedPairSim).cars.map Car.position = [(4, 1), (3, 1)] := by
  refine ⟨by decide, by decide, by decide, by decide, by decide⟩

/-- C2 (amended): cars are evaluated in list order, which is ascending
id order for engines built by the constructor; and the collision check
rejects a candidate exactly when it was already claimed by a vehicle
that moved earlier in this pass, or equals the current position of any
vehicle in the live list — an earlier-evaluated vehicle (whether it
moved or stayed), the vehicle itself, or a not-yet-evaluated vehicle. -/
theorem collision_check_order_and_condition :
    (∀ (gs : Int) (specs : List (Pos × String)) (cycle : Int),
      (simInit gs specs cycle).cars.map Car.id =
        (List.range specs.length).map Int.ofNat) ∧
    (∀ (done rest : List Car) (car : Car) (newps : List Pos),
      collisionRejected (done ++ car :: rest) newps car = true ↔
        (get_next_position car ∈ newps ∨
         (∃ o ∈ done, o.position = get_next_position car) ∨
         car.position = get_next_position car ∨
         (∃ o ∈ rest, o.position = get_next_position car))) := by
  constructor
  · intro gs specs cycle
    simp only [simInit, List.map_map]
    show specs.enum.map
        (Car.id ∘ fun q => { id := (q.1 : Int), position := q.2.1, direction := q.2.2 }) = _
    rw [show (Car.id ∘ fun q : Nat × (Pos × String) =>
        ({ id := (q.1 : Int), position := q.2.1, direction := q.2.2 } : Car)) =
        (Int.ofNat ∘ Prod.fst) from rfl]
    rw [← List.map_map, List.enum_map_fst]
  · intro done rest car newps
    unfold collisionRejected
    simp [List.any_eq_true, List.mem_append, List.mem_cons]

/-- A car appended to the evaluated prefix stays there, unchanged, for
the remainder of the pass. -/
lemma updateGo_get?_done_snoc (gs : Int) (inters : List (Pos × Intersection))
    (rest done : List Car) (newps : List Pos) (c : Car) :
    (updateGo gs inters (done ++ [c]) rest newps).get? done.length = some c := by
  obtain ⟨l, hl, _⟩ := updateGo_shape gs inters rest (done ++ [c]) newps
  rw [hl, List.append_assoc]
  rw [List.get?_append_right (Nat.le_refl _)]
  simp

/-- An out-of-bounds candidate fails the admissibility checks, whatever
the pass state. -/
lemma carMoves_oob (gs : Int) (inters : List (Pos × Intersection))
    (cars : List Car) (newps : List Pos) (car : Car)
    (h : inBounds gs (get_next_position car) = false) :
    carMoves gs inters cars newps car = false := by
  simp [carMoves, h]

/-- A candidate at a controlled cell whose light is not green for the
car's direction fails the admissibility checks, whatever the pass
state. -/
lemma carMoves_red (gs : Int) (inters : List (Pos × Intersection))
    (cars : List Car) (newps : List Pos) (car : Car) (it : Intersection)
    (h1 : lookupIntersection inters (get_next_position car) = some it)
    (h2 : it.is_green car.direction = false) :
    carMoves gs inters cars newps car = false := by
  simp [carMoves, h1, h2]

/-- A car whose candidate is its own current position is always rejected
by the collision check as long as it is in the live list. -/
lemma carMoves_self_block (gs : Int) (inters : List (Pos × Intersection))
    (cars : List Car) (newps : List Pos) (car : Car)
    (h : get_next_position car = car.position) (hc : car ∈ cars) :
    carMoves gs inters cars newps car = false := by
  have hcr : collisionRejected cars newps car = true := by
    unfold collisionRejected
    simp only [Bool.or_eq_true, List.any_eq_true, decide_eq_true_eq]
    exact Or.inr ⟨car, hc, h.symm⟩
  simp [carMoves, hcr]

/-- A direction string outside the four cardinal values leaves the
candidate position equal to the car's own position. -/
lemma get_next_position_invalid (c : Car)
    (hd : ¬ (c.direction = "N" ∨ c.direction = "S" ∨ c.direction = "E" ∨
      c.direction = "W")) :
    get_next_position c = c.position := by
  unfold get_next_position
  push_neg at hd
  obtain ⟨h1, h2, h3, h4⟩ := hd
  rw [if_neg h1, if_neg h2, if_neg h3, if_neg h4]

/-- A green light for a direction forces the direction to be one of the
four cardinal values. -/
lemma is_green_true_dir (it : Intersection) (d : String)
    (h : it.is_green d = true) :
    d = "N" ∨ d = "S" ∨ d = "E" ∨ d = "W" := by
  unfold Intersection.is_green at h
  split_ifs at h with h1 h2
  · tauto
  · tauto

/-- For a cardinal direction, moving advances by exactly the spec's unit
delta for that heading. -/
lemma move_position_delta (c : Car)
    (hd : c.direction = "N" ∨ c.direction = "S" ∨ c.direction = "E" ∨
      c.direction = "W") :
    (Car.move c).position =
      (c.position.1 + (headingDelta c.direction).1,
       c.position.2 + (headingDelta c.direction).2) := by
  rcases hd with h | h | h | h <;>
    (simp [Car.move, headingDelta, h, Prod.ext_iff]; try omega)

/-- C3: during `update()`, a car whose candidate cell is a controlled
intersection with the light not green for its direction ends the tick
at its pre-tick position; and mid-pass, a car whose candidate is a
controlled cell with a green light for its direction, in bounds and not
rejected by the collision check, is committed as `Car.move` of itself,
which advances it exactly one cell along its heading's unit delta. -/
theorem red_light_stops_green_advances :
    (∀ (s : Simulator) (i : Nat) (c : Car) (it : Intersection),
      s.cars.get? i = some c →
      lookupIntersection
          (s.intersections.map (fun q => (q.1, Intersection.update_light q.2)))
          (get_next_position c) = some it →
      it.is_green c.direction = false →
      (Simulator.update s).cars.get? i = some c) ∧
    (∀ (gs : Int) (inters : List (Pos × Intersection)) (done rest : List Car)
        (newps : List Pos) (car : Car) (it : Intersection),
      lookupIntersection inters (get_next_position car) = some it →
      it.is_green car.direction = true →
      inBounds gs (get_next_position car) = true →
      collisionRejected (done ++ car :: rest) newps car = false →
      (updateGo gs inters done (car :: rest) newps).get? done.length =
        some (Car.move car) ∧
      (Car.move car).position =
        (car.position.1 + (headingDelta car.direction).1,
         car.position.2 + (headingDelta car.direction).2)) := by
  constructor
  · intro s i c it h hlook hred
    rw [update_cars_eq]
    have := updateGo_get?_immovable s.grid_size
      (s.intersections.map (fun q => (q.1, Intersection.update_light q.2)))
      s.cars [] [] i c h
      (fun cars nps _ => carMoves_red _ _ cars nps c it hlook hred)
    simpa using this
  · intro gs inters done rest newps car it hlook hgreen hbounds hcoll
    have hm : carMoves gs inters (done ++ car :: rest) newps car = true := by
      simp [carMoves, hlook, hgreen, hbounds, hcoll]
    constructor
    · rw [updateGo, if_pos hm]
      exact updateGo_get?_done_snoc gs inters rest done _ (Car.move car)
    · exact move_position_delta car (is_green_true_dir it car.direction hgreen)

/-- Witness for C3: the fresh engine's light at (3, 0) is EW-red, so the
eastbound car stays; with an EW-green light it is committed one cell
East. -/
theorem red_light_stops_green_advances_witness :
    (Simulator.update (simInit 5 [((2, 0), "E")] 5)).cars.get? 0 = some eastCar ∧
    ((updateGo 5 [((3, 0), greenEWCell)] [] [eastCar] []).get? 0 =
        some (Car.move eastCar) ∧
      (Car.move eastCar).position =
        (eastCar.position.1 + (headingDelta eastCar.direction).1,
         eastCar.position.2 + (headingDelta eastCar.direction).2)) :=
  ⟨red_light_stops_green_advances.1 (simInit 5 [((2, 0), "E")] 5) 0 eastCar
      redEWCell (by decide) (by decide) (by decide),
    red_light_stops_green_advances.2 5 [((3, 0), greenEWCell)] [] [] []
      eastCar greenEWCell (by decide) (by decide) (by decide) (by decide)⟩

/-- C8: a car whose candidate cell is outside the grid on either axis
ends the tick at its pre-tick position — it is neither removed (the car
count is preserved) nor wrapped. -/
theorem out_of_bounds_car_stays (s : Simulator) (i : Nat) (c : Car)
    (h : s.cars.get? i = some c)
    (hb : inBounds s.grid_size (get_next_position c) = false) :
    (Simulator.update s).cars.get? i = some c ∧
    (Simulator.update s).cars.length = s.cars.length := by
  constructor
  · rw [update_cars_eq]
    have := updateGo_get?_immovable s.grid_size
      (s.intersections.map (fun q => (q.1, Intersection.update_light q.2)))
      s.cars [] [] i c h
      (fun cars nps _ => carMoves_oob _ _ cars nps c hb)
    simpa using this
  · rw [update_cars_eq, updateGo_length]
    simp

/-- Witness for C8: on a 5-grid a car at (4, 1) heading East would leave
the grid, so after the tick it is unchanged and the car count is 1. -/
theorem out_of_bounds_car_stays_witness :
    (Simulator.update (simInit 5 [((4, 1), "E")] 5)).cars.get? 0 =
      some { id := 0, position := (4, 1), direction := "E" } ∧
    (Simulator.update (simInit 5 [((4, 1), "E")] 5)).cars.length =
      (simInit 5 [((4, 1), "E")] 5).cars.length :=
  out_of_bounds_car_stays (simInit 5 [((4, 1), "E")] 5) 0
    { id := 0, position := (4, 1), direction := "E" } (by decide) (by decide)

/-- C10: a car whose direction is not one of the four cardinal strings
has its own cell as candidate; whenever it is in the live list the
collision check rejects that candidate; and any number of `update()`
calls leaves the car (position included) unchanged. -/
theorem invalid_direction_car_never_moves (s : Simulator) (i : Nat) (c : Car)
    (h : s.cars.get? i = some c)
    (hd : ¬ (c.direction = "N" ∨ c.direction = "S" ∨ c.direction = "E" ∨
      c.direction = "W")) :
    get_next_position c = c.position ∧
    (∀ (cars : List Car) (newps : List Pos), c ∈ cars →
      collisionRejected cars newps c = true) ∧
    ∀ n : Nat, (Simulator.update^[n] s).cars.get? i = some c := by
  have hnp : get_next_position c = c.position := get_next_position_invalid c hd
  refine ⟨hnp, ?_, ?_⟩
  · intro cars newps hc
    unfold collisionRejected
    simp only [Bool.or_eq_true, List.any_eq_true, decide_eq_true_eq]
    exact Or.inr ⟨c, hc, hnp.symm⟩
  · intro n
    induction n with
    | zero => simpa using h
    | succ n ih =>
      rw [Function.iterate_succ_apply', update_cars_eq]
      have := updateGo_get?_immovable (Simulator.update^[n] s).grid_size
        ((Simulator.update^[n] s).intersections.map
          (fun q => (q.1, Intersection.update_light q.2)))
        (Simulator.update^[n] s).cars [] [] i c ih
        (fun cars nps hc => carMoves_self_block _ _ cars nps c hnp hc)
      simpa using this

/-- Witness for C10: a car with direction "X" is still in place after 3
ticks. -/
theorem invalid_direction_car_never_moves_witness :
    (simInit 3 [((1, 1), "X")] 5).cars.get? 0 =
      some { id := 0, position := (1, 1), direction := "X" } ∧
    (Simulator.update^[3] (simInit 3 [((1, 1), "X")] 5)).cars.get? 0 =
      some { id := 0, position := (1, 1), direction := "X" } :=
  ⟨by decide,
    (invalid_direction_car_never_moves (simInit 3 [((1, 1), "X")] 5) 0
      { id := 0, position := (1, 1), direction := "X" }
      (by decide) (by decide)).2.2 3⟩

/-- Counterexample to C6 as stated: `find_path` on a constructed engine
with start = goal = (1, 0) returns the empty sequence, not the
singleton [(1, 0)]. -/
theorem find_path_self_counterexample :
    Simulator.find_path (simInit 10 [((1, 0), "E")] 5) (1, 0) (1, 0) = [] ∧
    ¬ Simulator.find_path (simInit 10 [((1, 0), "E")] 5) (1, 0) (1, 0) =
        [((1 : Int), (0 : Int))] :=
  ⟨rfl, by decide⟩

/-- C6 (amended): `find_path` is an unimplemented stub returning the
empty sequence for every pair of positions — so unreachable pairs do
get the empty sequence, but `findPath(a, a)` is also empty, never the
singleton [a]; consistently, a freshly constructed road network has no
road cells, so every endpoint fails `is_road`. -/
theorem find_path_always_empty :
    (∀ (s : Simulator) (a b : Pos), Simulator.find_path s a b = []) ∧
    (∀ (gs : Int) (p : Pos), (RoadNetwork.init gs).is_road p = false) :=
  ⟨fun _ _ _ => rfl, fun gs p => by simp [RoadNetwork.init, RoadNetwork.is_road]⟩

/-- Counterexample to C7 as stated: configurations the spec declares
invalid (negative grid size; zero cycle length) are accepted by the
constructor, which returns a normal engine state instead of failing
with an InvalidConfiguration error. -/
theorem init_validation_counterexample :
    specInvalidConfiguration (-5) 5 0 0 = true ∧
    simInit (-5) [] 5 =
      { grid_size := -5, time_step := 0, cars := [], intersections := [],
        road_network := RoadNetwork.init (-5) } ∧
    specInvalidConfiguration 10 0 0 84 = true ∧
    (simInit 10 [] 0).intersections.length = 16 ∧
    (simInit 10 [] 0).intersections.all (fun q => q.2.cycle_length = 0) = true := by
  refine ⟨by decide, by decide, by decide, by decide, by decide⟩

/-- C7 (amended): the constructor performs no validation and reports no
InvalidConfiguration error: for any grid size and cycle length (zero
vehicles drawn) it returns synchronously the corresponding engine
state; a non-positive grid size just yields no intersections, and every
intersection inherits the given cycle length unchecked. -/
theorem init_accepts_invalid_config (gs : Int) (cycle : Int) :
    simInit gs [] cycle =
      { grid_size := gs, time_step := 0, cars := [],
        intersections := initIntersections gs cycle,
        road_network := RoadNetwork.init gs } ∧
    (gs ≤ 0 → initIntersections gs cycle = []) ∧
    (∀ q ∈ initIntersections gs cycle, q.2.cycle_length = cycle) := by
  refine ⟨rfl, ?_, ?_⟩
  · intro h
    have h0 : gs.toNat = 0 := Int.toNat_of_nonpos h
    simp [initIntersections, strideThree, h0]
  · intro q hq
    simp only [initIntersections, List.mem_flatMap, List.mem_map] at hq
    obtain ⟨x, -, y, -, rfl⟩ := hq
    rfl

/-- Witness for C7 (amended) at grid size -5 and cycle length 0. -/
theorem init_accepts_invalid_config_witness :
    simInit (-5) [] 0 =
      { grid_size := -5, time_step := 0, cars := [],
        intersections := initIntersections (-5) 0,
        road_network := RoadNetwork.init (-5) } ∧
    initIntersections (-5) 0 = [] :=
  ⟨(init_accepts_invalid_config (-5) 0).1,
    (init_accepts_invalid_config (-5) 0).2.1 (by decide)⟩

/-- Counterexample to C9 as stated: on the 10-grid with stride-3
intersections and cycle length 5, the single car starting at (1, 0)
heading East is at (2, 0) after 3 ticks, not (4, 0). -/
theorem scenario_three_ticks_counterexample :
    ¬ (Simulator.update^[3] (simInit 10 [((1, 0), "E")] 5)).cars.map
        Car.position = [((4 : Int), (0 : Int))] ∧
    (Simulator.update^[3] (simInit 10 [((1, 0), "E")] 5)).cars.map
        Car.position = [(2, 0)] := by
  refine ⟨by decide, by decide⟩

/-- C9 (amended): (3, 0) is itself a controlled cell in the stride-3
layout, so the car advances only once — to (2, 0) on tick 1 — and is
then gated at (3, 0), whose EW light is still red at tick 3; it first
passes at tick 5, when the light flips, reaching (3, 0). -/
theorem scenario_three_ticks_gated :
    ((3 : Int), (0 : Int)) ∈
      (simInit 10 [((1, 0), "E")] 5).intersections.map Prod.fst ∧
    (Simulator.update^[1] (simInit 10 [((1, 0), "E")] 5)).cars.map
      Car.position = [(2, 0)] ∧
    (Simulator.update^[2] (simInit 10 [((1, 0), "E")] 5)).cars.map
      Car.position = [(2, 0)] ∧
    (Simulator.update^[3] (simInit 10 [((1, 0), "E")] 5)).cars.map
      Car.position = [(2, 0)] ∧
    (lookupIntersection
        (Simulator.update^[3] (simInit 10 [((1, 0), "E")] 5)).intersections
        (3, 0)).map (fun it => it.light_state) =
      some { ns := "green", ew := "red" } ∧
    (Simulator.update^[5] (simInit 10 [((1, 0), "E")] 5)).cars.map
      Car.position = [(3, 0)] := by
  refine ⟨by decide, by decide, by decide, by decide, by decide, by decide⟩
